import Mathlib

/-!
Verification of the ICF block snapping core (Scene3D.ts and the block
catalog of icfCatalog.ts), shallowly embedded in Lean 4.

Embedding conventions:
* JavaScript numbers are modelled as rationals. Every arithmetic operation
  the snapping core performs (+, -, *, / by a constant, Math.round,
  comparison) is exact on the inputs the claims are about, so the rational
  semantics is the idealised real-number semantics of the code.
* The TypeScript string-literal union ICFBlockType is embedded as String,
  matching the JavaScript runtime where any string can reach these
  functions; the predicate isICFBlockType carves out the declared union.
  Likewise ICFCoreThickness (4|6|8|10|12) is embedded as a rational with
  the predicate isICFCoreThickness.
* A JavaScript TypeError (reading a property of undefined, which is what
  an unknown catalog key produces) is modelled with Except String.
* The source compares Euclidean distances: dist = Math.sqrt(dx^2 + dz^2),
  dist < SNAP_THRESHOLD, dist < closestDistance. Math.sqrt is strictly
  monotone on nonnegative reals, so the embedding compares squared
  distances against SNAP_THRESHOLD^2 and the squared running minimum;
  closestDistance = Infinity is modelled as Option.none.
-/

/-- World-space vector, fields as in THREE.Vector3 restricted to x/y/z. -/
structure Vec3 where
  x : ℚ
  y : ℚ
  z : ℚ
deriving DecidableEq

/-- Face orientation tags, exactly the four string literals of the source. -/
inductive FaceOrientation where
  | minX
  | maxX
  | minZ
  | maxZ
deriving DecidableEq

/-- Semantic edge labels of SnapResult.snapEdge. -/
inductive Edge where
  | left
  | right
  | front
  | back
deriving DecidableEq

/-- JavaScript `a || b` on an optional number: undefined and 0 are falsy. -/
def jsOr (a : Option ℚ) (b : ℚ) : ℚ :=
  match a with
  | none => b
  | some v => if v = 0 then b else v

/-- Width calculation from icfCatalog.ts: 2 foam panels (5.5") + core. -/
def getStandardWidth (core : ℚ) : ℚ := 5.5 + core

/-- The fields of ICFBlockSpec that the snapping core reads. -/
structure ICFBlockSpec where
  length : ℚ
  longLeg : Option ℚ
  shortLeg : Option ℚ
  getWidth : ℚ → ℚ

/-- ICF_BLOCK_CATALOG from icfCatalog.ts (geometry fields only); an
unknown key yields none, i.e. undefined in JavaScript. -/
def ICF_BLOCK_CATALOG (t : String) : Option ICFBlockSpec :=
  if t = "standard" then
    some { length := 48, longLeg := none, shortLeg := none, getWidth := getStandardWidth }
  else if t = "corner90" then
    some { length := 38.5, longLeg := some 38.5, shortLeg := some 22.5, getWidth := getStandardWidth }
  else if t = "corner45" then
    some { length := 32, longLeg := some 32, shortLeg := some 32, getWidth := getStandardWidth }
  else if t = "taperTop" then
    some { length := 48, longLeg := none, shortLeg := none, getWidth := fun core => getStandardWidth core + 4 }
  else if t = "brickLedge" then
    some { length := 48, longLeg := none, shortLeg := none, getWidth := fun _ => 17.375 }
  else if t = "heightAdjuster" then
    some { length := 48, longLeg := none, shortLeg := none, getWidth := getStandardWidth }
  else none

/-- Membership in the declared TypeScript union ICFBlockType. -/
def isICFBlockType (t : String) : Prop :=
  t = "standard" ∨ t = "corner90" ∨ t = "corner45" ∨
  t = "taperTop" ∨ t = "brickLedge" ∨ t = "heightAdjuster"

/-- Membership in the declared TypeScript union ICFCoreThickness. -/
def isICFCoreThickness (c : ℚ) : Prop :=
  c = 4 ∨ c = 6 ∨ c = 8 ∨ c = 10 ∨ c = 12

/-- The fields of ICFBlock that the snapping core reads. -/
structure ICFBlock where
  id : String
  type : String
  coreThickness : ℚ
  position : Vec3
  rotation : ℚ
deriving DecidableEq

/-- BlockBounds from Scene3D.ts. -/
structure BlockBounds where
  minX : ℚ
  maxX : ℚ
  minZ : ℚ
  maxZ : ℚ
  rotation : ℚ
deriving DecidableEq

/-- Error message standing for the TypeError a JavaScript runtime raises
when an unknown catalog key makes the spec lookup yield undefined. -/
def catalogTypeError : String := "TypeError: cannot read getWidth of undefined"

/-- getBlockBounds from Scene3D.ts. -/
def getBlockBounds (block : ICFBlock) : Except String BlockBounds :=
  match ICF_BLOCK_CATALOG block.type with
  | none => .error catalogTypeError
  | some spec =>
    let width := spec.getWidth block.coreThickness
    let pos := block.position
    let rotation := block.rotation
    if block.type = "standard" ∨ block.type = "taperTop" ∨
       block.type = "brickLedge" ∨ block.type = "heightAdjuster" then
      let halfLength := spec.length / 2
      let halfWidth := width / 2
      if rotation = 0 ∨ rotation = 180 then
        .ok { minX := pos.x - halfLength, maxX := pos.x + halfLength,
              minZ := pos.z - halfWidth, maxZ := pos.z + halfWidth, rotation := rotation }
      else
        .ok { minX := pos.x - halfWidth, maxX := pos.x + halfWidth,
              minZ := pos.z - halfLength, maxZ := pos.z + halfLength, rotation := rotation }
    else if block.type = "corner90" then
      let longLeg := jsOr spec.longLeg 38.5
      let shortLeg := jsOr spec.shortLeg 22.5
      let halfWidth := width / 2
      if rotation = 0 then
        .ok { minX := pos.x - halfWidth, maxX := pos.x + shortLeg - halfWidth,
              minZ := pos.z - longLeg / 2, maxZ := pos.z + longLeg / 2, rotation := rotation }
      else if rotation = 90 then
        .ok { minX := pos.x - longLeg / 2, maxX := pos.x + longLeg / 2,
              minZ := pos.z - shortLeg + halfWidth, maxZ := pos.z + halfWidth, rotation := rotation }
      else if rotation = 180 then
        .ok { minX := pos.x - shortLeg + halfWidth, maxX := pos.x + halfWidth,
              minZ := pos.z - longLeg / 2, maxZ := pos.z + longLeg / 2, rotation := rotation }
      else if rotation = 270 then
        .ok { minX := pos.x - longLeg / 2, maxX := pos.x + longLeg / 2,
              minZ := pos.z - halfWidth, maxZ := pos.z + shortLeg - halfWidth, rotation := rotation }
      else
        .ok { minX := pos.x - halfWidth, maxX := pos.x + shortLeg - halfWidth,
              minZ := pos.z - longLeg / 2, maxZ := pos.z + longLeg / 2, rotation := rotation }
    else if block.type = "corner45" then
      let legLength := jsOr spec.longLeg 32
      if rotation = 0 then
        .ok { minX := pos.x, maxX := pos.x + legLength,
              minZ := pos.z, maxZ := pos.z + legLength, rotation := rotation }
      else if rotation = 90 then
        .ok { minX := pos.x, maxX := pos.x + legLength,
              minZ := pos.z - legLength, maxZ := pos.z, rotation := rotation }
      else if rotation = 180 then
        .ok { minX := pos.x - legLength, maxX := pos.x,
              minZ := pos.z - legLength, maxZ := pos.z, rotation := rotation }
      else if rotation = 270 then
        .ok { minX := pos.x - legLength, maxX := pos.x,
              minZ := pos.z, maxZ := pos.z + legLength, rotation := rotation }
      else
        .ok { minX := pos.x, maxX := pos.x + legLength,
              minZ := pos.z, maxZ := pos.z + legLength, rotation := rotation }
    else
      .ok { minX := pos.x - 24, maxX := pos.x + 24,
            minZ := pos.z - 7, maxZ := pos.z + 7, rotation := rotation }

/-- BlockFace from Scene3D.ts (the optional width field is never read by
the snapper and is omitted). -/
structure BlockFace where
  centerX : ℚ
  centerZ : ℚ
  plane : ℚ
  orientation : FaceOrientation
deriving DecidableEq

/-- FaceOffset from Scene3D.ts. -/
structure FaceOffset where
  offsetX : ℚ
  offsetZ : ℚ
  planeOffset : ℚ
  orientation : FaceOrientation
deriving DecidableEq

/-- getBlockFaces from Scene3D.ts: snap faces of an existing block in
world coordinates. -/
def getBlockFaces (block : ICFBlock) : Except String (List BlockFace) :=
  match ICF_BLOCK_CATALOG block.type with
  | none => .error catalogTypeError
  | some spec =>
    let width := spec.getWidth block.coreThickness
    let halfWidth := width / 2
    let pos := block.position
    if block.type = "standard" ∨ block.type = "taperTop" ∨
       block.type = "brickLedge" ∨ block.type = "heightAdjuster" then
      let length := spec.length
      let halfLength := length / 2
      if block.rotation = 0 ∨ block.rotation = 180 then
        .ok [ { centerX := pos.x - halfLength, centerZ := pos.z, plane := pos.x - halfLength, orientation := .minX },
              { centerX := pos.x + halfLength, centerZ := pos.z, plane := pos.x + halfLength, orientation := .maxX },
              { centerX := pos.x, centerZ := pos.z - halfWidth, plane := pos.z - halfWidth, orientation := .minZ },
              { centerX := pos.x, centerZ := pos.z + halfWidth, plane := pos.z + halfWidth, orientation := .maxZ } ]
      else
        .ok [ { centerX := pos.x - halfWidth, centerZ := pos.z, plane := pos.x - halfWidth, orientation := .minX },
              { centerX := pos.x + halfWidth, centerZ := pos.z, plane := pos.x + halfWidth, orientation := .maxX },
              { centerX := pos.x, centerZ := pos.z - halfLength, plane := pos.z - halfLength, orientation := .minZ },
              { centerX := pos.x, centerZ := pos.z + halfLength, plane := pos.z + halfLength, orientation := .maxZ } ]
    else if block.type = "corner90" then
      let longLeg := jsOr spec.longLeg 38.5
      let shortLeg := jsOr spec.shortLeg 22.5
      let halfLongLeg := longLeg / 2
      if block.rotation = 0 then
        .ok [ { centerX := pos.x - halfWidth, centerZ := pos.z, plane := pos.x - halfWidth, orientation := .minX },
              { centerX := pos.x + shortLeg - halfWidth, centerZ := pos.z - halfLongLeg + halfWidth, plane := pos.x + shortLeg - halfWidth, orientation := .maxX },
              { centerX := pos.x - halfWidth + shortLeg / 2, centerZ := pos.z - halfLongLeg, plane := pos.z - halfLongLeg, orientation := .minZ },
              { centerX := pos.x, centerZ := pos.z + halfLongLeg, plane := pos.z + halfLongLeg, orientation := .maxZ } ]
      else if block.rotation = 90 then
        .ok [ { centerX := pos.x - halfLongLeg, centerZ := pos.z + halfWidth - shortLeg / 2, plane := pos.x - halfLongLeg, orientation := .minX },
              { centerX := pos.x + halfLongLeg, centerZ := pos.z, plane := pos.x + halfLongLeg, orientation := .maxX },
              { centerX := pos.x - halfLongLeg + halfWidth, centerZ := pos.z - shortLeg + halfWidth, plane := pos.z - shortLeg + halfWidth, orientation := .minZ },
              { centerX := pos.x, centerZ := pos.z + halfWidth, plane := pos.z + halfWidth, orientation := .maxZ } ]
      else if block.rotation = 180 then
        .ok [ { centerX := pos.x - shortLeg + halfWidth, centerZ := pos.z + halfLongLeg - halfWidth, plane := pos.x - shortLeg + halfWidth, orientation := .minX },
              { centerX := pos.x + halfWidth, centerZ := pos.z, plane := pos.x + halfWidth, orientation := .maxX },
              { centerX := pos.x, centerZ := pos.z - halfLongLeg, plane := pos.z - halfLongLeg, orientation := .minZ },
              { centerX := pos.x + halfWidth - shortLeg / 2, centerZ := pos.z + halfLongLeg, plane := pos.z + halfLongLeg, orientation := .maxZ } ]
      else if block.rotation = 270 then
        .ok [ { centerX := pos.x - halfLongLeg, centerZ := pos.z, plane := pos.x - halfLongLeg, orientation := .minX },
              { centerX := pos.x + halfLongLeg, centerZ := pos.z - halfWidth + shortLeg / 2, plane := pos.x + halfLongLeg, orientation := .maxX },
              { centerX := pos.x, centerZ := pos.z - halfWidth, plane := pos.z - halfWidth, orientation := .minZ },
              { centerX := pos.x + halfLongLeg - halfWidth, centerZ := pos.z + shortLeg - halfWidth, plane := pos.z + shortLeg - halfWidth, orientation := .maxZ } ]
      else
        .ok []
    else
      match getBlockBounds block with
      | .error e => .error e
      | .ok bounds =>
        .ok [ { centerX := bounds.minX, centerZ := (bounds.minZ + bounds.maxZ) / 2, plane := bounds.minX, orientation := .minX },
              { centerX := bounds.maxX, centerZ := (bounds.minZ + bounds.maxZ) / 2, plane := bounds.maxX, orientation := .maxX },
              { centerX := (bounds.minX + bounds.maxX) / 2, centerZ := bounds.minZ, plane := bounds.minZ, orientation := .minZ },
              { centerX := (bounds.minX + bounds.maxX) / 2, centerZ := bounds.maxZ, plane := bounds.maxZ, orientation := .maxZ } ]

/-- getBlockFaceOffsets from Scene3D.ts: face offsets of a prospective
block relative to its (not yet chosen) center. -/
def getBlockFaceOffsets (type : String) (core : ℚ) (rotation : ℚ) : Except String (List FaceOffset) :=
  match ICF_BLOCK_CATALOG type with
  | none => .error catalogTypeError
  | some spec =>
    let width := spec.getWidth core
    let halfWidth := width / 2
    if type = "standard" ∨ type = "taperTop" ∨ type = "brickLedge" ∨ type = "heightAdjuster" then
      let halfLength := spec.length / 2
      if rotation = 0 ∨ rotation = 180 then
        .ok [ { offsetX := -halfLength, offsetZ := 0, planeOffset := -halfLength, orientation := .minX },
              { offsetX := halfLength, offsetZ := 0, planeOffset := halfLength, orientation := .maxX },
              { offsetX := 0, offsetZ := -halfWidth, planeOffset := -halfWidth, orientation := .minZ },
              { offsetX := 0, offsetZ := halfWidth, planeOffset := halfWidth, orientation := .maxZ } ]
      else
        .ok [ { offsetX := -halfWidth, offsetZ := 0, planeOffset := -halfWidth, orientation := .minX },
              { offsetX := halfWidth, offsetZ := 0, planeOffset := halfWidth, orientation := .maxX },
              { offsetX := 0, offsetZ := -halfLength, planeOffset := -halfLength, orientation := .minZ },
              { offsetX := 0, offsetZ := halfLength, planeOffset := halfLength, orientation := .maxZ } ]
    else if type = "corner90" then
      let longLeg := jsOr spec.longLeg 38.5
      let shortLeg := jsOr spec.shortLeg 22.5
      let halfLongLeg := longLeg / 2
      if rotation = 0 then
        .ok [ { offsetX := -halfWidth, offsetZ := 0, planeOffset := -halfWidth, orientation := .minX },
              { offsetX := shortLeg - halfWidth, offsetZ := -halfLongLeg + halfWidth, planeOffset := shortLeg - halfWidth, orientation := .maxX },
              { offsetX := -halfWidth + shortLeg / 2, offsetZ := -halfLongLeg, planeOffset := -halfLongLeg, orientation := .minZ },
              { offsetX := 0, offsetZ := halfLongLeg, planeOffset := halfLongLeg, orientation := .maxZ } ]
      else if rotation = 90 then
        .ok [ { offsetX := -halfLongLeg, offsetZ := halfWidth - shortLeg / 2, planeOffset := -halfLongLeg, orientation := .minX },
              { offsetX := halfLongLeg, offsetZ := 0, planeOffset := halfLongLeg, orientation := .maxX },
              { offsetX := -halfLongLeg + halfWidth, offsetZ := -shortLeg + halfWidth, planeOffset := -shortLeg + halfWidth, orientation := .minZ },
              { offsetX := 0, offsetZ := halfWidth, planeOffset := halfWidth, orientation := .maxZ } ]
      else if rotation = 180 then
        .ok [ { offsetX := -shortLeg + halfWidth, offsetZ := halfLongLeg - halfWidth, planeOffset := -shortLeg + halfWidth, orientation := .minX },
              { offsetX := halfWidth, offsetZ := 0, planeOffset := halfWidth, orientation := .maxX },
              { offsetX := 0, offsetZ := -halfLongLeg, planeOffset := -halfLongLeg, orientation := .minZ },
              { offsetX := halfWidth - shortLeg / 2, offsetZ := halfLongLeg, planeOffset := halfLongLeg, orientation := .maxZ } ]
      else if rotation = 270 then
        .ok [ { offsetX := -halfLongLeg, offsetZ := 0, planeOffset := -halfLongLeg, orientation := .minX },
              { offsetX := halfLongLeg, offsetZ := -halfWidth + shortLeg / 2, planeOffset := halfLongLeg, orientation := .maxX },
              { offsetX := 0, offsetZ := -halfWidth, planeOffset := -halfWidth, orientation := .minZ },
              { offsetX := halfLongLeg - halfWidth, offsetZ := shortLeg - halfWidth, planeOffset := shortLeg - halfWidth, orientation := .maxZ } ]
      else
        .ok []
    else
      .ok [ { offsetX := -24, offsetZ := 0, planeOffset := -24, orientation := .minX },
            { offsetX := 24, offsetZ := 0, planeOffset := 24, orientation := .maxX },
            { offsetX := 0, offsetZ := -7, planeOffset := -7, orientation := .minZ },
            { offsetX := 0, offsetZ := 7, planeOffset := 7, orientation := .maxZ } ]

/-- SnapResult from Scene3D.ts. -/
structure SnapResult where
  position : Vec3
  snappedToBlock : Bool
  snappedBlockId : Option String
  snapEdge : Option Edge
deriving DecidableEq

/-- SNAP_THRESHOLD from Scene3D.ts: snap when within 150 inches. -/
def SNAP_THRESHOLD : ℚ := 150

/-- JavaScript Math.round: nearest integer, halves rounding toward plus
infinity, returned as a number. -/
def jsRound (q : ℚ) : ℚ := (⌊q + 1 / 2⌋ : ℤ)

/-- snapToGrid from Scene3D.ts (module-level export, default gridSize 8):
horizontal coordinates round to the gridSize lattice, the vertical one to
the fixed 16-inch module. -/
def snapToGrid (position : Vec3) (gridSize : ℚ := 8) : Vec3 :=
  { x := jsRound (position.x / gridSize) * gridSize
    y := jsRound (position.y / 16) * 16
    z := jsRound (position.z / gridSize) * gridSize }

/-- Mutable loop state of snapBlockPosition. closestDistanceSq models the
closestDistance variable through its square; none models Infinity. -/
structure SnapState where
  bestSnapPosition : Vec3
  closestDistanceSq : Option ℚ
  snappedToBlock : Bool
  snappedBlockId : Option String
  snapEdge : Option Edge
deriving DecidableEq

/-- One candidate placement solved from a valid (existing face, new face
offset) pair inside the snapBlockPosition search loop. -/
structure Candidate where
  snapX : ℚ
  snapZ : ℚ
  blockId : String
  edge : Edge
deriving DecidableEq

/-- Squared ground-plane distance between the raw position and a solved
candidate position (the square of the dist variable of the source). -/
def candDistSq (rawPosition : Vec3) (c : Candidate) : ℚ :=
  (rawPosition.x - c.snapX) ^ 2 + (rawPosition.z - c.snapZ) ^ 2

/-- Edge-name mapping at the end of the snapBlockPosition inner loop. -/
def edgeOfOrientation : FaceOrientation → Edge
  | .minX => .left
  | .maxX => .right
  | .minZ => .back
  | .maxZ => .front

/-- The four validPair cases of snapBlockPosition: opposing orientations
on the same axis; every other combination leaves validPair false. -/
def validPair : FaceOrientation → FaceOrientation → Bool
  | .maxX, .minX => true
  | .minX, .maxX => true
  | .maxZ, .minZ => true
  | .minZ, .maxZ => true
  | _, _ => false

/-- The test exFace.orientation is minX or maxX selecting the X-plane
solving case of snapBlockPosition. -/
def isXOrientation : FaceOrientation → Bool
  | .minX => true
  | .maxX => true
  | .minZ => false
  | .maxZ => false

/-- Candidate-center solving step of snapBlockPosition: for a valid pair,
the plane coordinate makes the face planes coincide and the perpendicular
coordinate makes the face midpoints coincide; invalid pairs are skipped. -/
def pairCandidate (blockId : String) (exFace : BlockFace) (newFace : FaceOffset) :
    Option Candidate :=
  if validPair exFace.orientation newFace.orientation then
    if isXOrientation exFace.orientation then
      some { snapX := exFace.plane - newFace.planeOffset,
             snapZ := exFace.centerZ - newFace.offsetZ,
             blockId := blockId, edge := edgeOfOrientation newFace.orientation }
    else
      some { snapX := exFace.centerX - newFace.offsetX,
             snapZ := exFace.plane - newFace.planeOffset,
             blockId := blockId, edge := edgeOfOrientation newFace.orientation }
  else
    none

/-- Does a candidate at squared distance distSq beat the current running
minimum? Mirrors dist < SNAP_THRESHOLD && dist < closestDistance of the
source, with both comparisons squared (closestDistance starts at
Infinity, which every finite distance beats). -/
def qualifies (distSq : ℚ) (closest : Option ℚ) : Bool :=
  decide (distSq < SNAP_THRESHOLD ^ 2) &&
    (match closest with
     | none => true
     | some d => decide (distSq < d))

/-- Body of the innermost snapBlockPosition loop for one candidate: keep
it when it beats the running minimum, recording position (with the raw y),
block id and edge label. -/
def stepCand (rawPosition : Vec3) (st : SnapState) (c : Candidate) : SnapState :=
  let distSq := candDistSq rawPosition c
  if qualifies distSq st.closestDistanceSq then
    { bestSnapPosition := { x := c.snapX, y := rawPosition.y, z := c.snapZ }
      closestDistanceSq := some distSq
      snappedToBlock := true
      snappedBlockId := some c.blockId
      snapEdge := some c.edge }
  else
    st

/-- Body of the innermost snapBlockPosition loop for one (existing face,
new face offset) pair. -/
def stepPair (rawPosition : Vec3) (blockId : String) (exFace : BlockFace)
    (newFace : FaceOffset) (st : SnapState) : SnapState :=
  match pairCandidate blockId exFace newFace with
  | none => st
  | some c => stepCand rawPosition st c

/-- The outer loop of snapBlockPosition over existing blocks; getBlockFaces
may raise on an unknown block type, which aborts the loop as in JavaScript. -/
def snapLoop (rawPosition : Vec3) (newFaceOffsets : List FaceOffset) :
    List ICFBlock → SnapState → Except String SnapState
  | [], st => .ok st
  | b :: bs, st =>
    match getBlockFaces b with
    | .error e => .error e
    | .ok exFaces =>
      snapLoop rawPosition newFaceOffsets bs
        (exFaces.foldl
          (fun s exFace =>
            newFaceOffsets.foldl (fun s2 newFace => stepPair rawPosition b.id exFace newFace s2) s)
          st)

/-- snapBlockPosition from Scene3D.ts: face-to-face snapping with grid
fallback. -/
def snapBlockPosition (rawPosition : Vec3) (blockType : String) (coreThickness : ℚ)
    (rotation : ℚ) (existingBlocks : List ICFBlock) (gridSize : ℚ := 8) :
    Except String SnapResult :=
  match getBlockFaceOffsets blockType coreThickness rotation with
  | .error e => .error e
  | .ok newFaceOffsets =>
    match snapLoop rawPosition newFaceOffsets existingBlocks
        { bestSnapPosition := rawPosition, closestDistanceSq := none,
          snappedToBlock := false, snappedBlockId := none, snapEdge := none } with
    | .error e => .error e
    | .ok final =>
      let pos :=
        if final.snappedToBlock then final.bestSnapPosition
        else
          { x := jsRound (rawPosition.x / gridSize) * gridSize
            y := jsRound (rawPosition.y / 16) * 16
            z := jsRound (rawPosition.z / gridSize) * gridSize }
      .ok { position := pos, snappedToBlock := final.snappedToBlock,
            snappedBlockId := final.snappedBlockId, snapEdge := final.snapEdge }

/-- All candidates one existing block contributes, in loop order: existing
faces outer, new-face offsets inner, invalid pairs skipped. -/
def faceCandidates (blockId : String) (newFaceOffsets : List FaceOffset) :
    List BlockFace → List Candidate
  | [] => []
  | f :: fs => newFaceOffsets.filterMap (pairCandidate blockId f) ++ faceCandidates blockId newFaceOffsets fs

/-- All candidates of the whole search, in loop order over the existing
blocks; raises exactly when the loop of snapBlockPosition raises. -/
def snapCandidates (newFaceOffsets : List FaceOffset) :
    List ICFBlock → Except String (List Candidate)
  | [] => .ok []
  | b :: bs =>
    match getBlockFaces b with
    | .error e => .error e
    | .ok exFaces =>
      match snapCandidates newFaceOffsets bs with
      | .error e => .error e
      | .ok rest => .ok (faceCandidates b.id newFaceOffsets exFaces ++ rest)

/-- Spec-side reading of a face offset as an absolute face: translate the
midpoint by the center and the plane by the center coordinate of the axis
the face is constant in. Used to compare getBlockFaces against
getBlockFaceOffsets. -/
def toAbsolute (pos : Vec3) (f : FaceOffset) : BlockFace :=
  { centerX := pos.x + f.offsetX
    centerZ := pos.z + f.offsetZ
    plane :=
      match f.orientation with
      | .minX => pos.x + f.planeOffset
      | .maxX => pos.x + f.planeOffset
      | .minZ => pos.z + f.planeOffset
      | .maxZ => pos.z + f.planeOffset
    orientation := f.orientation }

/-! Helper lemmas about the embedded definitions. -/

/-- Rounding a number that is already an integer multiple leaves it fixed:
jsRound on an integer cast is the identity. -/
theorem jsRound_intCast (n : ℤ) : jsRound (n : ℚ) = (n : ℚ) := by
  unfold jsRound
  rw [add_comm, Int.floor_add_int]
  norm_num

/-- jsRound always returns an integer cast. -/
theorem jsRound_eq_intCast (q : ℚ) : jsRound q = ((⌊q + 1 / 2⌋ : ℤ) : ℚ) := rfl

/-- One grid component round-trips: rounding an already grid-aligned
coordinate changes nothing. -/
theorem jsRound_grid_idem (a g : ℚ) (hg : g ≠ 0) :
    jsRound (jsRound (a / g) * g / g) * g = jsRound (a / g) * g := by
  rw [mul_div_cancel_right₀ _ hg, jsRound_eq_intCast (a / g), jsRound_intCast]

/-- getBlockFaceOffsets never raises on a declared block type, whatever
the thickness and rotation. -/
theorem getBlockFaceOffsets_total (t : String) (ht : isICFBlockType t) (core rot : ℚ) :
    ∃ offs, getBlockFaceOffsets t core rot = .ok offs := by
  rcases ht with rfl | rfl | rfl | rfl | rfl | rfl <;>
    · simp only [getBlockFaceOffsets, ICF_BLOCK_CATALOG]
      norm_num
      split_ifs <;> exact ⟨_, rfl⟩

/-- Folding a function that ignores its second argument is the identity. -/
theorem foldl_skip {α β : Type} : ∀ (l : List α) (s : β), l.foldl (fun s _ => s) s = s
  | [], _ => rfl
  | _ :: l, s => foldl_skip l s

/-- With no face offsets for the new block, the search loop of
snapBlockPosition leaves its state untouched (when it does not raise). -/
theorem snapLoop_no_offsets (raw : Vec3) :
    ∀ (bs : List ICFBlock) (st st' : SnapState),
      snapLoop raw [] bs st = .ok st' → st' = st := by
  intro bs
  induction bs with
  | nil =>
    intro st st' h
    injection h with h
    exact h.symm
  | cons b bs ih =>
    intro st st' h
    unfold snapLoop at h
    cases hf : getBlockFaces b with
    | error e => rw [hf] at h; cases h
    | ok exFaces =>
      rw [hf] at h
      dsimp only at h
      have hfold : exFaces.foldl
          (fun s exFace => List.foldl (fun s2 newFace => stepPair raw b.id exFace newFace s2) s []) st = st :=
        foldl_skip exFaces st
      rw [hfold] at h
      exact ih st st' h


/-- The state the snapBlockPosition loop writes when a candidate beats the
running minimum. -/
def updatedState (raw : Vec3) (c : Candidate) : SnapState :=
  { bestSnapPosition := { x := c.snapX, y := raw.y, z := c.snapZ }
    closestDistanceSq := some (candDistSq raw c)
    snappedToBlock := true
    snappedBlockId := some c.blockId
    snapEdge := some c.edge }

/-- A non-qualifying candidate leaves the state unchanged; a qualifying
one overwrites every tracked field. -/
theorem stepCand_cases (raw : Vec3) (st : SnapState) (c : Candidate) :
    stepCand raw st c = st ∨
      (candDistSq raw c < SNAP_THRESHOLD ^ 2 ∧
        (∀ d, st.closestDistanceSq = some d → candDistSq raw c < d) ∧
        stepCand raw st c = updatedState raw c) := by
  by_cases h : qualifies (candDistSq raw c) st.closestDistanceSq = true
  · right
    have h' := h
    unfold qualifies at h'
    simp only [Bool.and_eq_true, decide_eq_true_eq] at h'
    refine ⟨h'.1, ?_, ?_⟩
    · intro d hd
      have h2 := h'.2
      rw [hd] at h2
      simpa using h2
    · unfold stepCand
      rw [if_pos h]
      rfl
  · left
    unfold stepCand
    rw [if_neg h]

/-- A candidate strictly under the threshold that fails to qualify can
only have been beaten: the running minimum exists and is at most its
distance. -/
theorem not_qualifies_bound (distSq : ℚ) (closest : Option ℚ)
    (hth : distSq < SNAP_THRESHOLD ^ 2) (h : ¬ qualifies distSq closest = true) :
    ∃ e, closest = some e ∧ e ≤ distSq := by
  cases closest with
  | none =>
    exfalso
    apply h
    unfold qualifies
    simp [hth]
  | some e =>
    refine ⟨e, rfl, ?_⟩
    by_contra hlt
    apply h
    unfold qualifies
    simp only [Bool.and_eq_true, decide_eq_true_eq]
    exact ⟨hth, lt_of_not_le hlt⟩

/-- The tracked minimum never increases along the search fold. -/
theorem foldl_closest_mono (raw : Vec3) :
    ∀ (cs : List Candidate) (st : SnapState) (d : ℚ), st.closestDistanceSq = some d →
      ∃ d', d' ≤ d ∧ (cs.foldl (stepCand raw) st).closestDistanceSq = some d' := by
  intro cs
  induction cs with
  | nil => intro st d h; exact ⟨d, le_refl d, h⟩
  | cons c cs ih =>
    intro st d h
    rcases stepCand_cases raw st c with hc | ⟨hth, hbeat, hc⟩ <;> rw [List.foldl_cons, hc]
    · exact ih st d h
    · obtain ⟨d', hle, hd'⟩ := ih (updatedState raw c) (candDistSq raw c) rfl
      exact ⟨d', le_trans hle (le_of_lt (hbeat d h)), hd'⟩

/-- After the fold, the tracked minimum is at most the distance of every
below-threshold candidate of the list. -/
theorem foldl_closest_le (raw : Vec3) :
    ∀ (cs : List Candidate) (st : SnapState) (c : Candidate), c ∈ cs →
      candDistSq raw c < SNAP_THRESHOLD ^ 2 →
      ∃ d', (cs.foldl (stepCand raw) st).closestDistanceSq = some d' ∧ d' ≤ candDistSq raw c := by
  intro cs
  induction cs with
  | nil => intro st c hc; cases hc
  | cons c' cs ih =>
    intro st c hc hth
    rw [List.foldl_cons]
    rcases List.mem_cons.mp hc with rfl | hmem
    · by_cases hq : qualifies (candDistSq raw c) st.closestDistanceSq = true
      · have hstep : stepCand raw st c = updatedState raw c := by
          unfold stepCand
          rw [if_pos hq]
          rfl
        rw [hstep]
        obtain ⟨d', hle, hd'⟩ := foldl_closest_mono raw cs (updatedState raw c) (candDistSq raw c) rfl
        exact ⟨d', hd', hle⟩
      · obtain ⟨e, he, hele⟩ := not_qualifies_bound _ _ hth hq
        have hstep : stepCand raw st c = st := by
          unfold stepCand
          rw [if_neg hq]
        rw [hstep]
        obtain ⟨d', hle, hd'⟩ := foldl_closest_mono raw cs st e he
        exact ⟨d', hd', le_trans hle hele⟩
    · exact ih _ c hmem hth

/-- Once the fold has accepted some candidate it stays accepted. -/
theorem foldl_snapped_mono (raw : Vec3) :
    ∀ (cs : List Candidate) (st : SnapState), st.snappedToBlock = true →
      (cs.foldl (stepCand raw) st).snappedToBlock = true := by
  intro cs
  induction cs with
  | nil => intro st h; exact h
  | cons c cs ih =>
    intro st h
    rw [List.foldl_cons]
    rcases stepCand_cases raw st c with hc | ⟨_, _, hc⟩ <;> rw [hc]
    · exact ih st h
    · exact ih (updatedState raw c) rfl

/-- If some candidate of the list is strictly below the threshold, the
fold (started with an empty minimum) accepts. -/
theorem foldl_accept (raw : Vec3) :
    ∀ (cs : List Candidate) (st : SnapState), st.closestDistanceSq = none →
      (∃ c ∈ cs, candDistSq raw c < SNAP_THRESHOLD ^ 2) →
      (cs.foldl (stepCand raw) st).snappedToBlock = true := by
  intro cs
  induction cs with
  | nil =>
    intro st _ hex
    obtain ⟨c, hc, _⟩ := hex
    cases hc
  | cons c' cs ih =>
    intro st hnone hex
    rw [List.foldl_cons]
    by_cases hq : qualifies (candDistSq raw c') st.closestDistanceSq = true
    · have hstep : (stepCand raw st c').snappedToBlock = true := by
        unfold stepCand
        rw [if_pos hq]
      exact foldl_snapped_mono raw cs (stepCand raw st c') hstep
    · have hstep : stepCand raw st c' = st := by
        unfold stepCand
        rw [if_neg hq]
      rw [hstep]
      obtain ⟨c, hc, hth⟩ := hex
      rcases List.mem_cons.mp hc with rfl | hmem
      · exfalso
        apply hq
        unfold qualifies
        rw [hnone]
        simp [hth]
      · exact ih st hnone ⟨c, hmem, hth⟩

/-- If no candidate of the list is below the threshold, the fold is the
identity. -/
theorem foldl_noqual (raw : Vec3) :
    ∀ (cs : List Candidate) (st : SnapState),
      (∀ c ∈ cs, ¬ candDistSq raw c < SNAP_THRESHOLD ^ 2) →
      cs.foldl (stepCand raw) st = st := by
  intro cs
  induction cs with
  | nil => intro st _; rfl
  | cons c cs ih =>
    intro st hall
    rw [List.foldl_cons]
    have hstep : stepCand raw st c = st := by
      unfold stepCand
      rw [if_neg ?_]
      unfold qualifies
      simp [hall c (List.mem_cons_self c cs)]
    rw [hstep]
    exact ih st (fun c' hc' => hall c' (List.mem_cons_of_mem c hc'))

/-- The fold either returns its start state or the full record of some
below-threshold candidate of the list. -/
theorem foldl_result (raw : Vec3) :
    ∀ (cs : List Candidate) (st : SnapState),
      cs.foldl (stepCand raw) st = st ∨
        ∃ c ∈ cs, candDistSq raw c < SNAP_THRESHOLD ^ 2 ∧
          cs.foldl (stepCand raw) st = updatedState raw c := by
  intro cs
  induction cs with
  | nil => intro st; exact Or.inl rfl
  | cons c' cs ih =>
    intro st
    rw [List.foldl_cons]
    rcases stepCand_cases raw st c' with hc | ⟨hth, _, hc⟩ <;> rw [hc]
    · rcases ih st with h | ⟨c, hmem, hth2, h⟩
      · exact Or.inl h
      · exact Or.inr ⟨c, List.mem_cons_of_mem c' hmem, hth2, h⟩
    · rcases ih (updatedState raw c') with h | ⟨c, hmem, hth2, h⟩
      · exact Or.inr ⟨c', List.mem_cons_self c' cs, hth, h⟩
      · exact Or.inr ⟨c, List.mem_cons_of_mem c' hmem, hth2, h⟩

/-- The inner offset loop equals a flat fold over the solved candidates of
one existing face. -/
theorem foldl_offsets_eq (raw : Vec3) (bid : String) (exFace : BlockFace) :
    ∀ (offs : List FaceOffset) (st : SnapState),
      offs.foldl (fun s2 newFace => stepPair raw bid exFace newFace s2) st =
        (offs.filterMap (pairCandidate bid exFace)).foldl (stepCand raw) st := by
  intro offs
  induction offs with
  | nil => intro st; rfl
  | cons nf offs ih =>
    intro st
    rw [List.foldl_cons, List.filterMap_cons]
    cases h : pairCandidate bid exFace nf with
    | none =>
      rw [ih]
      have hstep : stepPair raw bid exFace nf st = st := by
        unfold stepPair
        rw [h]
      rw [hstep]
    | some c =>
      rw [List.foldl_cons, ih]
      have hstep : stepPair raw bid exFace nf st = stepCand raw st c := by
        unfold stepPair
        rw [h]
      rw [hstep]

/-- Unfolding equation of faceCandidates on a cons cell. -/
theorem faceCandidates_cons (bid : String) (offs : List FaceOffset) (f : BlockFace)
    (fs : List BlockFace) :
    faceCandidates bid offs (f :: fs) =
      offs.filterMap (pairCandidate bid f) ++ faceCandidates bid offs fs := rfl

/-- The two nested face loops of one existing block equal a flat fold over
that block's candidate list. -/
theorem foldl_faces_eq (raw : Vec3) (bid : String) (offs : List FaceOffset) :
    ∀ (faces : List BlockFace) (st : SnapState),
      faces.foldl
          (fun s exFace => offs.foldl (fun s2 newFace => stepPair raw bid exFace newFace s2) s) st =
        (faceCandidates bid offs faces).foldl (stepCand raw) st := by
  intro faces
  induction faces with
  | nil => intro st; rfl
  | cons f fs ih =>
    intro st
    rw [List.foldl_cons]
    show fs.foldl _ (offs.foldl (fun s2 newFace => stepPair raw bid f newFace s2) st) = _
    rw [ih, foldl_offsets_eq, faceCandidates_cons, List.foldl_append]

/-- The whole search loop of snapBlockPosition is the flat fold of the
candidate selection step over the candidates of all existing blocks. -/
theorem snapLoop_eq_candidates (raw : Vec3) (offs : List FaceOffset) :
    ∀ (bs : List ICFBlock) (st : SnapState),
      snapLoop raw offs bs st =
        (snapCandidates offs bs).map (fun cs => cs.foldl (stepCand raw) st) := by
  intro bs
  induction bs with
  | nil => intro st; rfl
  | cons b bs ih =>
    intro st
    unfold snapLoop snapCandidates
    cases hf : getBlockFaces b with
    | error e => rfl
    | ok exFaces =>
      dsimp only
      rw [ih]
      cases hc : snapCandidates offs bs with
      | error e => rfl
      | ok rest =>
        dsimp only [Except.map]
        rw [List.foldl_append, foldl_faces_eq]

/-! Claim theorems. -/

/-- The existing unit of the two spec scenarios: one standard rectangular
block (length 48, core 8, hence width 13.5) at the origin, rotation 0. -/
def blockA : ICFBlock :=
  { id := "A", type := "standard", coreThickness := 8, position := ⟨0, 0, 0⟩, rotation := 0 }

/-- Evaluation of the catalog at the corner90 key. -/
theorem cat_corner90 : ICF_BLOCK_CATALOG "corner90" =
    some { length := 38.5, longLeg := some 38.5, shortLeg := some 22.5, getWidth := getStandardWidth } := by
  unfold ICF_BLOCK_CATALOG
  simp

/-- C7: for every corner-90 unit at rotation 0, with the catalog legs
L = 38.5 and S = 22.5 and derived width W = 5.5 + core, getBlockBounds
returns X extent from center.x - W/2 to center.x + S - W/2 and Z extent
from center.z - L/2 to center.z + L/2. -/
theorem corner90_bounds_rot0 (id : String) (core : ℚ) (pos : Vec3) :
    getBlockBounds { id := id, type := "corner90", coreThickness := core, position := pos, rotation := 0 } =
      .ok { minX := pos.x - (5.5 + core) / 2, maxX := pos.x + 22.5 - (5.5 + core) / 2,
            minZ := pos.z - 38.5 / 2, maxZ := pos.z + 38.5 / 2, rotation := 0 } := by
  unfold getBlockBounds
  dsimp only
  rw [cat_corner90]
  norm_num [jsOr, getStandardWidth]
  simp

/-- C9: snapToGrid is idempotent for every position and every positive
grid size; the vertical component is rounded to a multiple of 16 in both
applications. -/
theorem snapToGrid_idempotent (p : Vec3) (g : ℚ) (hg : 0 < g) :
    snapToGrid (snapToGrid p g) g = snapToGrid p g := by
  have hg' : g ≠ 0 := ne_of_gt hg
  unfold snapToGrid
  simp only [Vec3.mk.injEq]
  exact ⟨jsRound_grid_idem p.x g hg', jsRound_grid_idem p.y 16 (by norm_num),
    jsRound_grid_idem p.z g hg'⟩

/-- C9 witness at p = (3, 5, 9), g = 8. -/
theorem snapToGrid_idempotent_witness :
    (0:ℚ) < 8 ∧ snapToGrid (snapToGrid ⟨3, 5, 9⟩ 8) 8 = snapToGrid ⟨3, 5, 9⟩ 8 :=
  ⟨by norm_num, snapToGrid_idempotent ⟨3, 5, 9⟩ 8 (by norm_num)⟩

/-- C2 (evidence of the code bug): for every shape category outside the
declared enumeration, getBlockBounds, getBlockFaces and
getBlockFaceOffsets all raise the catalog TypeError instead of returning
the 24 by 7 fallback footprint: the catalog lookup faults before the
fallback branches can run. -/
theorem unknownCategory_errors (t : String) (ht : ¬ isICFBlockType t)
    (id : String) (core : ℚ) (pos : Vec3) (rot : ℚ) :
    getBlockBounds { id := id, type := t, coreThickness := core, position := pos, rotation := rot } =
        .error catalogTypeError ∧
      getBlockFaces { id := id, type := t, coreThickness := core, position := pos, rotation := rot } =
        .error catalogTypeError ∧
      getBlockFaceOffsets t core rot = .error catalogTypeError := by
  have hnone : ICF_BLOCK_CATALOG t = none := by
    unfold isICFBlockType at ht
    push_neg at ht
    obtain ⟨h1, h2, h3, h4, h5, h6⟩ := ht
    unfold ICF_BLOCK_CATALOG
    simp [h1, h2, h3, h4, h5, h6]
  refine ⟨?_, ?_, ?_⟩
  · unfold getBlockBounds
    simp only
    rw [hnone]
  · unfold getBlockFaces
    simp only
    rw [hnone]
  · unfold getBlockFaceOffsets
    rw [hnone]

/-- C2 witness at the unknown category string mystery. -/
theorem unknownCategory_errors_witness :
    ¬ isICFBlockType "mystery" ∧
      getBlockBounds { id := "X", type := "mystery", coreThickness := 8, position := ⟨0, 0, 0⟩, rotation := 0 } =
        .error catalogTypeError ∧
      getBlockFaces { id := "X", type := "mystery", coreThickness := 8, position := ⟨0, 0, 0⟩, rotation := 0 } =
        .error catalogTypeError ∧
      getBlockFaceOffsets "mystery" 8 0 = .error catalogTypeError :=
  ⟨by unfold isICFBlockType; decide, unknownCategory_errors "mystery" (by unfold isICFBlockType; decide) "X" 8 ⟨0, 0, 0⟩ 0⟩

/-- C6: with no existing units, snapBlockPosition at gridSize 8 returns
exactly snapToGrid of the raw position, with the no-match flag clear of
any aligned unit id or edge label, for every declared category, thickness
and rotation. -/
theorem snap_empty_blocks_eq_grid (p : Vec3) (t : String) (core rot : ℚ)
    (ht : isICFBlockType t) :
    snapBlockPosition p t core rot [] 8 =
      .ok { position := snapToGrid p 8, snappedToBlock := false,
            snappedBlockId := none, snapEdge := none } := by
  obtain ⟨offs, hoffs⟩ := getBlockFaceOffsets_total t ht core rot
  unfold snapBlockPosition
  rw [hoffs]
  dsimp only [snapLoop]
  rfl

/-- C6 witness at p = (3, 17, 29), category corner45, core 6, rotation 90. -/
theorem snap_empty_blocks_eq_grid_witness :
    isICFBlockType "corner45" ∧
      snapBlockPosition ⟨3, 17, 29⟩ "corner45" 6 90 [] 8 =
        .ok { position := snapToGrid ⟨3, 17, 29⟩ 8, snappedToBlock := false,
              snappedBlockId := none, snapEdge := none } :=
  ⟨by unfold isICFBlockType; simp,
    snap_empty_blocks_eq_grid ⟨3, 17, 29⟩ "corner45" 6 90 (by unfold isICFBlockType; simp)⟩

/-- C1 (counterexample): in the spec scenario, one standard 48 by 13.5
unit at the origin at rotation 0 and a raw cursor position (50, 0, 2), the
snapper does not return center (72, 0, 0) with edge label right. -/
theorem snap_plusX_counterexample :
    snapBlockPosition ⟨50, 0, 2⟩ "standard" 8 0 [blockA] 8 ≠
      .ok { position := ⟨72, 0, 0⟩, snappedToBlock := true,
            snappedBlockId := some "A", snapEdge := some .right } := by
  norm_num [snapBlockPosition, getBlockFaceOffsets, getBlockFaces, ICF_BLOCK_CATALOG,
    getStandardWidth, jsOr, snapLoop, stepPair, pairCandidate, validPair, isXOrientation,
    stepCand, qualifies, candDistSq, edgeOfOrientation, SNAP_THRESHOLD, jsRound, blockA]

/-- C1 (amended): in that scenario the snapper aligns the new unit's minX
face to the existing unit's maxX face plane at x = 24, returning the
existing unit's identifier, center (48, 0, 0) (half-length 24 plus
half-length 24) and edge label left (the label names the new unit's
touching face, not the face snapped onto). -/
theorem snap_plusX_amended :
    snapBlockPosition ⟨50, 0, 2⟩ "standard" 8 0 [blockA] 8 =
      .ok { position := ⟨48, 0, 0⟩, snappedToBlock := true,
            snappedBlockId := some "A", snapEdge := some .left } := by
  norm_num [snapBlockPosition, getBlockFaceOffsets, getBlockFaces, ICF_BLOCK_CATALOG,
    getStandardWidth, jsOr, snapLoop, stepPair, pairCandidate, validPair, isXOrientation,
    stepCand, qualifies, candDistSq, edgeOfOrientation, SNAP_THRESHOLD, jsRound, blockA]

/-- C4 (counterexample): with the same existing unit and raw position
(500, 0, 500) at gridSize 8, the result is not (496, 0, 496):
Math.round(500 / 8) = Math.round(62.5) rounds halves up, to 63. -/
theorem grid_fallback_counterexample :
    snapBlockPosition ⟨500, 0, 500⟩ "standard" 8 0 [blockA] 8 ≠
      .ok { position := ⟨496, 0, 496⟩, snappedToBlock := false,
            snappedBlockId := none, snapEdge := none } := by
  norm_num [snapBlockPosition, getBlockFaceOffsets, getBlockFaces, ICF_BLOCK_CATALOG,
    getStandardWidth, jsOr, snapLoop, stepPair, pairCandidate, validPair, isXOrientation,
    stepCand, qualifies, candDistSq, edgeOfOrientation, SNAP_THRESHOLD, jsRound, blockA]

/-- C4 (amended): far from every unit the snapper takes the grid fallback
with the no-match flag set and returns (504, 0, 504), since
Math.round(500 / 8) = 63 and 63 * 8 = 504. -/
theorem grid_fallback_amended :
    snapBlockPosition ⟨500, 0, 500⟩ "standard" 8 0 [blockA] 8 =
      .ok { position := ⟨504, 0, 504⟩, snappedToBlock := false,
            snappedBlockId := none, snapEdge := none } := by
  norm_num [snapBlockPosition, getBlockFaceOffsets, getBlockFaces, ICF_BLOCK_CATALOG,
    getStandardWidth, jsOr, snapLoop, stepPair, pairCandidate, validPair, isXOrientation,
    stepCand, qualifies, candDistSq, edgeOfOrientation, SNAP_THRESHOLD, jsRound, blockA]

/-- C8: for every unit with a declared core thickness, at each of the four
valid rotations, whenever getBlockBounds returns a rectangle (any shape
category, the fallback branch included) it satisfies minX less or equal
maxX and minZ less or equal maxZ. -/
theorem blockBounds_wellFormed (block : ICFBlock) (bounds : BlockBounds)
    (hcore : isICFCoreThickness block.coreThickness)
    (hrot : block.rotation = 0 ∨ block.rotation = 90 ∨ block.rotation = 180 ∨ block.rotation = 270)
    (hb : getBlockBounds block = .ok bounds) :
    bounds.minX ≤ bounds.maxX ∧ bounds.minZ ≤ bounds.maxZ := by
  have hw : (0:ℚ) < block.coreThickness := by
    rcases hcore with h | h | h | h | h <;> rw [h] <;> norm_num
  by_cases h1 : block.type = "standard"
  · simp [getBlockBounds, ICF_BLOCK_CATALOG, h1, getStandardWidth] at hb
    split_ifs at hb <;> (injection hb with hb; subst hb; constructor <;> dsimp only <;> linarith)
  by_cases h2 : block.type = "corner90"
  · simp [getBlockBounds, ICF_BLOCK_CATALOG, h1, h2, getStandardWidth, jsOr] at hb
    split_ifs at hb <;> (injection hb with hb; subst hb; constructor <;> dsimp only <;> linarith)
  by_cases h3 : block.type = "corner45"
  · simp [getBlockBounds, ICF_BLOCK_CATALOG, h1, h2, h3, getStandardWidth, jsOr] at hb
    split_ifs at hb <;> (injection hb with hb; subst hb; constructor <;> dsimp only <;> linarith)
  by_cases h4 : block.type = "taperTop"
  · simp [getBlockBounds, ICF_BLOCK_CATALOG, h1, h2, h3, h4, getStandardWidth] at hb
    split_ifs at hb <;> (injection hb with hb; subst hb; constructor <;> dsimp only <;> linarith)
  by_cases h5 : block.type = "brickLedge"
  · simp [getBlockBounds, ICF_BLOCK_CATALOG, h1, h2, h3, h4, h5, getStandardWidth] at hb
    split_ifs at hb <;> (injection hb with hb; subst hb; constructor <;> dsimp only <;> linarith)
  by_cases h6 : block.type = "heightAdjuster"
  · simp [getBlockBounds, ICF_BLOCK_CATALOG, h1, h2, h3, h4, h5, h6, getStandardWidth] at hb
    split_ifs at hb <;> (injection hb with hb; subst hb; constructor <;> dsimp only <;> linarith)
  · simp [getBlockBounds, ICF_BLOCK_CATALOG, h1, h2, h3, h4, h5, h6] at hb

/-- C8 witness at the standard unit blockA, whose bounds are the rectangle
from (-24, -6.75) to (24, 6.75). -/
theorem blockBounds_wellFormed_witness :
    getBlockBounds blockA =
        .ok { minX := -24, maxX := 24, minZ := -6.75, maxZ := 6.75, rotation := 0 } ∧
      ((-24:ℚ) ≤ 24 ∧ (-6.75:ℚ) ≤ 6.75) :=
  ⟨by norm_num [getBlockBounds, blockA, ICF_BLOCK_CATALOG, getStandardWidth],
    blockBounds_wellFormed blockA
      { minX := -24, maxX := 24, minZ := -6.75, maxZ := 6.75, rotation := 0 }
      (by norm_num [blockA, isICFCoreThickness])
      (by norm_num [blockA])
      (by norm_num [getBlockBounds, blockA, ICF_BLOCK_CATALOG, getStandardWidth])⟩

/-- Evaluation of the catalog at the corner45 key. -/
theorem cat_corner45 : ICF_BLOCK_CATALOG "corner45" =
    some { length := 32, longLeg := some 32, shortLeg := some 32, getWidth := getStandardWidth } := by
  unfold ICF_BLOCK_CATALOG
  simp

/-- Bounds of a corner-45 unit at the origin, rotation 0. -/
theorem bounds_corner45_origin :
    getBlockBounds { id := "A", type := "corner45", coreThickness := 8, position := ⟨0, 0, 0⟩, rotation := 0 } =
      .ok { minX := 0, maxX := 32, minZ := 0, maxZ := 32, rotation := 0 } := by
  unfold getBlockBounds
  dsimp only
  rw [cat_corner45]
  norm_num [jsOr]
  simp

/-- Faces of a corner-45 unit at the origin: the bounding rectangle
sides (the default branch of getBlockFaces). -/
theorem faces_corner45_origin :
    getBlockFaces { id := "A", type := "corner45", coreThickness := 8, position := ⟨0, 0, 0⟩, rotation := 0 } =
      .ok [ { centerX := 0, centerZ := 16, plane := 0, orientation := .minX },
            { centerX := 32, centerZ := 16, plane := 32, orientation := .maxX },
            { centerX := 16, centerZ := 0, plane := 0, orientation := .minZ },
            { centerX := 16, centerZ := 32, plane := 32, orientation := .maxZ } ] := by
  unfold getBlockFaces
  dsimp only
  rw [cat_corner45, bounds_corner45_origin]
  norm_num
  simp

/-- Face offsets of a corner-45 unit: the fixed fallback offsets. -/
theorem faceOffsets_corner45 :
    getBlockFaceOffsets "corner45" 8 0 =
      .ok [ { offsetX := -24, offsetZ := 0, planeOffset := -24, orientation := .minX },
            { offsetX := 24, offsetZ := 0, planeOffset := 24, orientation := .maxX },
            { offsetX := 0, offsetZ := -7, planeOffset := -7, orientation := .minZ },
            { offsetX := 0, offsetZ := 7, planeOffset := 7, orientation := .maxZ } ] := by
  unfold getBlockFaceOffsets
  rw [cat_corner45]
  norm_num
  simp

/-- C3 (counterexample): for a corner-45 unit the two face functions are
not mirrors: getBlockFaces uses the bounding rectangle sides while
getBlockFaceOffsets returns the fixed 24 by 7 fallback offsets, so the
absolute faces differ from the offsets translated by the center. -/
theorem faces_offsets_mismatch_corner45 :
    getBlockFaces { id := "A", type := "corner45", coreThickness := 8, position := ⟨0, 0, 0⟩, rotation := 0 } ≠
      (getBlockFaceOffsets "corner45" 8 0).map (List.map (toAbsolute ⟨0, 0, 0⟩)) := by
  rw [faces_corner45_origin, faceOffsets_corner45]
  norm_num [toAbsolute, Except.map]

/-- C3 (amended): for every shape category except corner-45 (the four
rectangular categories and corner-90), every thickness, and each of the
four valid rotations, the absolute faces of a placed unit equal its face
offsets translated by the center, plane against plane and midpoint
against midpoint; hence solving an existing +X face with a candidate -X
offset puts the candidate's absolute -X plane exactly on the existing
plane. -/
theorem faces_eq_offsets_translated (t : String)
    (ht : t = "standard" ∨ t = "taperTop" ∨ t = "brickLedge" ∨ t = "heightAdjuster" ∨ t = "corner90")
    (rot : ℚ) (hrot : rot = 0 ∨ rot = 90 ∨ rot = 180 ∨ rot = 270)
    (core : ℚ) (id : String) (pos : Vec3) :
    getBlockFaces { id := id, type := t, coreThickness := core, position := pos, rotation := rot } =
      (getBlockFaceOffsets t core rot).map (List.map (toAbsolute pos)) := by
  rcases ht with rfl | rfl | rfl | rfl | rfl <;> rcases hrot with rfl | rfl | rfl | rfl <;>
    · simp [getBlockFaces, getBlockFaceOffsets, ICF_BLOCK_CATALOG, toAbsolute, Except.map,
        getStandardWidth, jsOr]
      norm_num [sub_eq_add_neg, add_assoc]

/-- C3 witness at the corner-90 category, rotation 90, core 6, center
(1, 2, 3). -/
theorem faces_eq_offsets_translated_witness :
    (("corner90" = "standard" ∨ "corner90" = "taperTop" ∨ "corner90" = "brickLedge" ∨
        "corner90" = "heightAdjuster" ∨ "corner90" = "corner90") ∧
      ((90:ℚ) = 0 ∨ (90:ℚ) = 90 ∨ (90:ℚ) = 180 ∨ (90:ℚ) = 270)) ∧
      getBlockFaces { id := "W", type := "corner90", coreThickness := 6, position := ⟨1, 2, 3⟩, rotation := 90 } =
        (getBlockFaceOffsets "corner90" 6 90).map (List.map (toAbsolute ⟨1, 2, 3⟩)) :=
  ⟨⟨by decide, by norm_num⟩,
    faces_eq_offsets_translated "corner90" (by decide) 90 (by norm_num) 6 "W" ⟨1, 2, 3⟩⟩

/-- C10: for every rotation outside 0, 90, 180, 270, a corner-90 unit has
no snap faces and no face offsets (the rotation switch has no default
case), so snapBlockPosition placing a corner-90 unit at such a rotation
always takes the grid fallback, and a lone existing corner-90 unit at such
a rotation is never face-snapped onto. -/
theorem corner90_invalid_rotation (rot : ℚ)
    (hrot : ¬(rot = 0 ∨ rot = 90 ∨ rot = 180 ∨ rot = 270)) :
    (∀ (id : String) (core : ℚ) (pos : Vec3),
        getBlockFaces { id := id, type := "corner90", coreThickness := core, position := pos, rotation := rot } = .ok []) ∧
      (∀ core : ℚ, getBlockFaceOffsets "corner90" core rot = .ok []) ∧
      (∀ (raw : Vec3) (core g : ℚ) (blocks : List ICFBlock) (r : SnapResult),
          snapBlockPosition raw "corner90" core rot blocks g = .ok r →
            r = { position := snapToGrid raw g, snappedToBlock := false,
                  snappedBlockId := none, snapEdge := none }) ∧
      (∀ (raw : Vec3) (t : String) (core2 rot2 g : ℚ) (id2 : String) (core3 : ℚ) (pos : Vec3) (r : SnapResult),
          snapBlockPosition raw t core2 rot2
              [{ id := id2, type := "corner90", coreThickness := core3, position := pos, rotation := rot }] g = .ok r →
            r.snappedToBlock = false ∧ r.snappedBlockId = none) := by
  push_neg at hrot
  obtain ⟨h0, h90, h180, h270⟩ := hrot
  have hfaces : ∀ (id : String) (core : ℚ) (pos : Vec3),
      getBlockFaces { id := id, type := "corner90", coreThickness := core, position := pos, rotation := rot } = .ok [] := by
    intro id core pos
    unfold getBlockFaces
    dsimp only
    rw [cat_corner90]
    norm_num [h0, h90, h180, h270]
    simp
  have hoffs : ∀ core : ℚ, getBlockFaceOffsets "corner90" core rot = .ok [] := by
    intro core
    unfold getBlockFaceOffsets
    rw [cat_corner90]
    norm_num [h0, h90, h180, h270]
    simp
  refine ⟨hfaces, hoffs, ?_, ?_⟩
  · intro raw core g blocks r hr
    unfold snapBlockPosition at hr
    rw [hoffs core] at hr
    dsimp only at hr
    cases hsl : snapLoop raw [] blocks
        { bestSnapPosition := raw, closestDistanceSq := none, snappedToBlock := false,
          snappedBlockId := none, snapEdge := none } with
    | error e => rw [hsl] at hr; cases hr
    | ok final =>
      rw [hsl] at hr
      have hfin := snapLoop_no_offsets raw blocks _ final hsl
      subst hfin
      dsimp only at hr
      injection hr with hr
      subst hr
      simp [snapToGrid]
  · intro raw t core2 rot2 g id2 core3 pos r hr
    unfold snapBlockPosition at hr
    cases hof : getBlockFaceOffsets t core2 rot2 with
    | error e => rw [hof] at hr; cases hr
    | ok offs =>
      rw [hof] at hr
      dsimp only at hr
      unfold snapLoop at hr
      rw [hfaces id2 core3 pos] at hr
      dsimp only at hr
      injection hr with hr
      subst hr
      exact ⟨rfl, rfl⟩

/-- C10 witness at rotation 45: a corner-90 block at rotation 45 exposes
no faces. -/
theorem corner90_invalid_rotation_witness :
    (¬((45:ℚ) = 0 ∨ (45:ℚ) = 90 ∨ (45:ℚ) = 180 ∨ (45:ℚ) = 270)) ∧
      getBlockFaces { id := "A", type := "corner90", coreThickness := 8, position := ⟨0, 0, 0⟩, rotation := 45 } = .ok [] :=
  ⟨by norm_num, (corner90_invalid_rotation 45 (by norm_num)).1 "A" 8 ⟨0, 0, 0⟩⟩

/-- C5: snapBlockPosition accepts a face-pair solution only strictly below
the 150 threshold and never one at distance exactly 150 (squared distances
compared against 150 squared, which is equivalent since Math.sqrt is
strictly monotone): an accepted result lies strictly under the threshold
and at minimal distance among the below-threshold candidates, some
below-threshold candidate forces acceptance, and when no candidate is
below the threshold the result falls through to the grid. -/
theorem snap_threshold_strict (raw : Vec3) (t : String) (core rot g : ℚ)
    (blocks : List ICFBlock) (offs : List FaceOffset) (cs : List Candidate) (r : SnapResult)
    (hoffs : getBlockFaceOffsets t core rot = .ok offs)
    (hcs : snapCandidates offs blocks = .ok cs)
    (hr : snapBlockPosition raw t core rot blocks g = .ok r) :
    (r.snappedToBlock = true →
        (raw.x - r.position.x) ^ 2 + (raw.z - r.position.z) ^ 2 < SNAP_THRESHOLD ^ 2 ∧
        ∀ c ∈ cs, candDistSq raw c < SNAP_THRESHOLD ^ 2 →
          (raw.x - r.position.x) ^ 2 + (raw.z - r.position.z) ^ 2 ≤ candDistSq raw c) ∧
      ((∃ c ∈ cs, candDistSq raw c < SNAP_THRESHOLD ^ 2) → r.snappedToBlock = true) ∧
      ((∀ c ∈ cs, ¬ candDistSq raw c < SNAP_THRESHOLD ^ 2) →
        r.snappedToBlock = false ∧ r.position = snapToGrid raw g) := by
  unfold snapBlockPosition at hr
  rw [hoffs] at hr
  dsimp only at hr
  rw [snapLoop_eq_candidates raw offs blocks, hcs] at hr
  dsimp only [Except.map] at hr
  injection hr with hr
  subst hr
  refine ⟨?_, ?_, ?_⟩
  · intro hsnap
    dsimp only at hsnap
    rcases foldl_result raw cs
        { bestSnapPosition := raw, closestDistanceSq := none, snappedToBlock := false,
          snappedBlockId := none, snapEdge := none } with hfr | ⟨c, hmem, hth, hfr⟩
    · rw [hfr] at hsnap
      cases hsnap
    · constructor
      · dsimp only
        rw [hfr, if_pos]
        · show (raw.x - ((updatedState raw c).bestSnapPosition).x) ^ 2 +
              (raw.z - ((updatedState raw c).bestSnapPosition).z) ^ 2 < SNAP_THRESHOLD ^ 2
          exact hth
        · rfl
      · intro c' hc' hth'
        obtain ⟨d', hd', hle⟩ := foldl_closest_le raw cs
          { bestSnapPosition := raw, closestDistanceSq := none, snappedToBlock := false,
            snappedBlockId := none, snapEdge := none } c' hc' hth'
        rw [hfr] at hd'
        have hdc : d' = candDistSq raw c := by
          have : (updatedState raw c).closestDistanceSq = some (candDistSq raw c) := rfl
          rw [this] at hd'
          exact (Option.some.inj hd').symm
        dsimp only
        rw [hfr, if_pos]
        · show (raw.x - ((updatedState raw c).bestSnapPosition).x) ^ 2 +
              (raw.z - ((updatedState raw c).bestSnapPosition).z) ^ 2 ≤ candDistSq raw c'
          calc (raw.x - ((updatedState raw c).bestSnapPosition).x) ^ 2 +
              (raw.z - ((updatedState raw c).bestSnapPosition).z) ^ 2 = candDistSq raw c := rfl
            _ = d' := hdc.symm
            _ ≤ candDistSq raw c' := hle
        · rfl
  · intro hex
    dsimp only
    exact foldl_accept raw cs
      { bestSnapPosition := raw, closestDistanceSq := none, snappedToBlock := false,
        snappedBlockId := none, snapEdge := none } rfl hex
  · intro hall
    have hfr := foldl_noqual raw cs
      { bestSnapPosition := raw, closestDistanceSq := none, snappedToBlock := false,
        snappedBlockId := none, snapEdge := none } hall
    dsimp only
    rw [hfr]
    exact ⟨rfl, rfl⟩

/-- Raw position of the C5 witness scenario: exactly 150 from the nearest
face-pair solution (48, 0) of blockA. -/
def rawW : Vec3 := ⟨198, 0, 0⟩

/-- Face offsets of a standard core-8 unit at rotation 0. -/
def offsW : List FaceOffset :=
  [ { offsetX := -24, offsetZ := 0, planeOffset := -24, orientation := .minX },
    { offsetX := 24, offsetZ := 0, planeOffset := 24, orientation := .maxX },
    { offsetX := 0, offsetZ := -6.75, planeOffset := -6.75, orientation := .minZ },
    { offsetX := 0, offsetZ := 6.75, planeOffset := 6.75, orientation := .maxZ } ]

/-- The four face-pair solutions against blockA in loop order. -/
def csW : List Candidate :=
  [ { snapX := -48, snapZ := 0, blockId := "A", edge := .right },
    { snapX := 48, snapZ := 0, blockId := "A", edge := .left },
    { snapX := 0, snapZ := -13.5, blockId := "A", edge := .front },
    { snapX := 0, snapZ := 13.5, blockId := "A", edge := .back } ]

/-- The result of the C5 witness scenario: all candidates are at squared
distance at least 150 squared, so the grid fallback fires. -/
def rW : SnapResult :=
  { position := ⟨200, 0, 0⟩, snappedToBlock := false, snappedBlockId := none, snapEdge := none }

/-- C5 witness: at raw position (198, 0, 0) the nearest candidate (48, 0)
is at distance exactly 150 and is rejected, the snapper takes the grid. -/
theorem snap_threshold_strict_witness :
    (getBlockFaceOffsets "standard" 8 0 = .ok offsW ∧
      snapCandidates offsW [blockA] = .ok csW ∧
      snapBlockPosition rawW "standard" 8 0 [blockA] 8 = .ok rW) ∧
      ((rW.snappedToBlock = true →
          (rawW.x - rW.position.x) ^ 2 + (rawW.z - rW.position.z) ^ 2 < SNAP_THRESHOLD ^ 2 ∧
          ∀ c ∈ csW, candDistSq rawW c < SNAP_THRESHOLD ^ 2 →
            (rawW.x - rW.position.x) ^ 2 + (rawW.z - rW.position.z) ^ 2 ≤ candDistSq rawW c) ∧
        ((∃ c ∈ csW, candDistSq rawW c < SNAP_THRESHOLD ^ 2) → rW.snappedToBlock = true) ∧
        ((∀ c ∈ csW, ¬ candDistSq rawW c < SNAP_THRESHOLD ^ 2) →
          rW.snappedToBlock = false ∧ rW.position = snapToGrid rawW 8)) := by
  have h1 : getBlockFaceOffsets "standard" 8 0 = .ok offsW := by
    norm_num [getBlockFaceOffsets, ICF_BLOCK_CATALOG, getStandardWidth, offsW]
  have h2 : snapCandidates offsW [blockA] = .ok csW := by
    norm_num [snapCandidates, faceCandidates, getBlockFaces, ICF_BLOCK_CATALOG, getStandardWidth,
      blockA, pairCandidate, validPair, isXOrientation, edgeOfOrientation, offsW, csW,
      List.filterMap_cons]
  have h3 : snapBlockPosition rawW "standard" 8 0 [blockA] 8 = .ok rW := by
    norm_num [snapBlockPosition, getBlockFaceOffsets, getBlockFaces, ICF_BLOCK_CATALOG,
      getStandardWidth, jsOr, snapLoop, stepPair, pairCandidate, validPair, isXOrientation,
      stepCand, qualifies, candDistSq, edgeOfOrientation, SNAP_THRESHOLD, jsRound, blockA,
      rawW, rW]
  exact ⟨⟨h1, h2, h3⟩,
    snap_threshold_strict rawW "standard" 8 0 8 [blockA] offsW csW rW h1 h2 h3⟩
